import Mathlib

/-!
Shallow embedding of the Upstox streaming integration
(`broker/upstox/streaming/`): the exchange/mode mapping layer
(`upstox_mapping.py`), the low-level WebSocket client
(`upstox_websocket.py`) and the adapter (`upstox_adapter.py`).

Conventions of the embedding:
* Python dicts with string keys become association lists (`List (k × v)`);
  `dict.get(k, d)` becomes `(l.lookup k).getD d`.
* Python `str.upper()` becomes character-wise `Char.toUpper` (the exchange
  and mode codes involved are ASCII).
* Raising an exception becomes returning `Except.error`; a call into the
  transport (`ws.send`, `ws_client.connect`) is a parameter of the
  operation, so theorems quantify over its outcome.
* Mutable object state (`self.subscriptions`, `self.running`, ...) becomes
  explicit state passing on `AdapterState`.
-/

namespace Upstox

/-! ## upstox_mapping.py -/

/-- `UpstoxExchangeMapper.OA_TO_UPSTOX`: the dict literal, in source order. -/
def OA_TO_UPSTOX : List (String × String) :=
  [("NSE", "NSE_EQ"),
   ("BSE", "BSE_EQ"),
   ("NFO", "NSE_FO"),
   ("BFO", "BSE_FO"),
   ("CDS", "NSE_CURRENCY"),
   ("BCD", "BSE_CURRENCY"),
   ("MCX", "MCX_FO"),
   ("NSE_INDEX", "NSE_INDEX"),
   ("BSE_INDEX", "BSE_INDEX")]

/-- `UpstoxExchangeMapper.UPSTOX_TO_OA = {v: k for k, v in OA_TO_UPSTOX.items()}`. -/
def UPSTOX_TO_OA : List (String × String) :=
  OA_TO_UPSTOX.map (fun p => (p.2, p.1))

/-- Python `str.upper()` on ASCII strings, character-wise. -/
def pyUpper (s : String) : String :=
  ⟨s.data.map Char.toUpper⟩

/-- `UpstoxExchangeMapper.to_upstox_exchange(oa_exchange)`:
`OA_TO_UPSTOX.get(oa_exchange.upper(), oa_exchange.upper())`. -/
def to_upstox_exchange (oa_exchange : String) : String :=
  ((OA_TO_UPSTOX.lookup (pyUpper oa_exchange)).getD (pyUpper oa_exchange))

/-- `UpstoxExchangeMapper.to_oa_exchange(upstox_exchange)`:
`UPSTOX_TO_OA.get(upstox_exchange.upper(), upstox_exchange.upper())`. -/
def to_oa_exchange (upstox_exchange : String) : String :=
  ((UPSTOX_TO_OA.lookup (pyUpper upstox_exchange)).getD (pyUpper upstox_exchange))

/-- `UpstoxCapabilityRegistry.MODES`. -/
def MODES : List String :=
  ["ltpc", "option_greeks", "full", "full_d30"]

/-- `UpstoxCapabilityRegistry.MAX_SUBSCRIPTIONS`. -/
def MAX_SUBSCRIPTIONS : List (String × Nat) :=
  [("ltpc", 5000), ("option_greeks", 3000), ("full", 2000), ("full_d30", 50)]

/-- `UpstoxCapabilityRegistry.is_mode_supported(mode)`: `mode in MODES`. -/
def is_mode_supported (mode : String) : Bool :=
  MODES.contains mode

/-- `UpstoxCapabilityRegistry.get_max_subscriptions(mode)`:
`MAX_SUBSCRIPTIONS.get(mode, 0)`. -/
def get_max_subscriptions (mode : String) : Nat :=
  ((MAX_SUBSCRIPTIONS.lookup mode).getD 0)

/-! ## upstox_websocket.py -/

/-- JSON values, as built by the client before `json.dumps` (only the
constructors the control messages use: strings, arrays, objects). -/
inductive Json where
  | str (s : String)
  | arr (xs : List Json)
  | obj (kvs : List (String × Json))
deriving Repr

/-- Lower-case hex digit, as `%x` formatting uses. -/
def hexDigit (n : Nat) : Char :=
  if n < 10 then Char.ofNat (48 + n) else Char.ofNat (87 + n)

/-- Four-digit hex rendering, as in `json.dumps`'s `\uXXXX` escapes. -/
def hex4 (n : Nat) : String :=
  ⟨[hexDigit (n / 4096 % 16), hexDigit (n / 256 % 16),
    hexDigit (n / 16 % 16), hexDigit (n % 16)]⟩

/-- `json.dumps` escaping of one character (default `ensure_ascii=True`):
backslash and quote get a backslash, control and non-ASCII characters
become `\uXXXX` (a surrogate pair above the BMP), the rest pass through. -/
def jescapeChar (c : Char) : String :=
  if c = '\\' then "\\\\"
  else if c = '"' then "\\\""
  else if c.toNat < 32 then "\\u" ++ hex4 c.toNat
  else if c.toNat < 127 then String.singleton c
  else if c.toNat < 65536 then "\\u" ++ hex4 c.toNat
  else
    let v := c.toNat - 65536
    "\\u" ++ hex4 (55296 + v / 1024) ++ "\\u" ++ hex4 (56320 + v % 1024)

/-- `json.dumps` escaping of a whole string (without the quotes). -/
def jescape (s : String) : String :=
  String.join (s.data.map jescapeChar)

/-- A JSON string literal: escaped content between double quotes. -/
def jquote (s : String) : String :=
  "\"" ++ jescape s ++ "\""

mutual

/-- `json.dumps` with its default separators `", "` and `": "`,
keys in insertion order (Python dicts preserve it). -/
def dumps : Json → String
  | .str s => jquote s
  | .arr xs => "[" ++ dumpsArr xs ++ "]"
  | .obj kvs => "\x7b" ++ dumpsObj kvs ++ "\x7d"

/-- Array elements joined by `", "`. -/
def dumpsArr : List Json → String
  | [] => ""
  | [x] => dumps x
  | x :: y :: xs => dumps x ++ ", " ++ dumpsArr (y :: xs)

/-- Object entries `"key": value` joined by `", "`. -/
def dumpsObj : List (String × Json) → String
  | [] => ""
  | [(k, v)] => jquote k ++ ": " ++ dumps v
  | (k, v) :: q :: kvs => jquote k ++ ": " ++ dumps v ++ ", " ++ dumpsObj (q :: kvs)

end

/-- The text `UpstoxWebSocket.subscribe(guid, mode, instrument_keys)` hands
to `self.ws.send`: `json.dumps` of the `req` dict built in the source. -/
def ws_subscribe_msg (guid mode : String) (instrument_keys : List String) : String :=
  dumps (.obj [("guid", .str guid),
               ("method", .str "sub"),
               ("data", .obj [("mode", .str mode),
                              ("instrumentKeys", .arr (instrument_keys.map .str))])])

/-- The text `UpstoxWebSocket.unsubscribe(guid, instrument_keys)` hands to
`self.ws.send`: note there is no `"mode"` entry. -/
def ws_unsubscribe_msg (guid : String) (instrument_keys : List String) : String :=
  dumps (.obj [("guid", .str guid),
               ("method", .str "unsub"),
               ("data", .obj [("instrumentKeys", .arr (instrument_keys.map .str))])])

/-- One incoming transport frame: binary (protobuf envelope bytes) or text. -/
inductive Frame where
  | binary (b : List Nat)
  | text (s : String)
deriving Repr, DecidableEq

/-- What `_on_message` forwards to the injected `on_message` callback:
the decoded dict for a binary frame, the raw text for a text frame.
`α` is the type of decoded records (`msg_dict`). -/
inductive Delivered (α : Type) where
  | dict (d : α)
  | text (s : String)
deriving Repr, DecidableEq

/-- A callback invocation made by `UpstoxWebSocket._on_message`. -/
inductive WsEvent (α : Type) where
  | onMessage (m : Delivered α)
  | onError (e : String)
deriving Repr, DecidableEq

/-- `UpstoxWebSocket._on_message(ws, message)`. The protobuf decoder
(`FeedResponse.ParseFromString` plus `_protobuf_to_dict`, external library
code) is the parameter `dec`; raising becomes `Except.error`. The whole
body is wrapped in `try/except`: a decode error is reported through
`on_error` and the handler returns normally, which is why the result is a
total list of callback invocations and never an exception. -/
def ws_on_message {α : Type} (dec : List Nat → Except String α) :
    Frame → List (WsEvent α)
  | .binary b =>
    match dec b with
    | .ok d => [.onMessage (.dict d)]
    | .error e => [.onError e]
  | .text s => [.onMessage (.text s)]

/-- The receive loop: the transport delivers frames in order and invokes
`_on_message` once per frame; the events of all frames concatenate. -/
def receive_loop {α : Type} (dec : List Nat → Except String α)
    (frames : List Frame) : List (WsEvent α) :=
  (frames.map (ws_on_message dec)).flatten

/-- The wait loop at the end of `UpstoxWebSocket.connect`:
`for _ in range(30): if self.connected: return True; self._stop_event.wait(0.1)`
then `return False`. `connected i` is the value of `self.connected` observed
at iteration `i`; the result pairs the returned Bool with the list of wait
durations performed, in milliseconds. -/
def connect_poll (connected : Nat → Bool) : Nat → Nat → Bool × List Nat
  | _, 0 => (false, [])
  | i, fuel + 1 =>
    if connected i then (true, [])
    else
      let r := connect_poll connected (i + 1) fuel
      (r.1, 100 :: r.2)

/-- `UpstoxWebSocket.connect`'s wait window: 30 attempts starting at 0. -/
def ws_connect_wait (connected : Nat → Bool) : Bool × List Nat :=
  connect_poll connected 0 30

/-! ## upstox_adapter.py -/

/-- The mutable fields of `UpstoxWebSocketAdapter` the claims are about.
`subscriptions` is the dict `{(symbol, exchange, mode): True}`, embedded as
its key list in insertion order; `ws_client` records whether an
`UpstoxWebSocket` has been constructed. -/
structure AdapterState where
  access_token : Option String
  running : Bool
  ws_client : Bool
  subscriptions : List (String × String × String)
deriving Repr, DecidableEq

/-- Python truthiness test `not self.access_token`:
true for `None` and for the empty string. -/
def tokenMissing : Option String → Bool
  | none => true
  | some s => s == ""

/-- A step `UpstoxWebSocketAdapter.connect` performs after the credential
check, in order: constructing the `UpstoxWebSocket`, then calling its
`connect()` (whose boolean result the adapter ignores). -/
inductive ConnectStep where
  | constructClient
  | wsConnect (result : Bool)
deriving Repr, DecidableEq

/-- `UpstoxWebSocketAdapter.connect(self)`. `wsResult` is the Bool the
client's `connect()` would return (timeout or success); the result is the
new state, the call outcome (an exception for a missing token), and the
trace of steps taken. -/
def adapter_connect (wsResult : Bool) (st : AdapterState) :
    AdapterState × Except String Unit × List ConnectStep :=
  if tokenMissing st.access_token then
    (st, .error "Upstox access_token required for WebSocket connection.", [])
  else
    ({ st with ws_client := true, running := true },
     .ok (), [.constructClient, .wsConnect wsResult])

/-- Python `self.subscriptions[key] = True`: overwrite keeps the position,
a fresh key is appended. -/
def dict_set_key (l : List (String × String × String))
    (k : String × String × String) : List (String × String × String) :=
  if l.contains k then l else l ++ [k]

/-- Python `self.subscriptions.pop(key, None)`: remove the key if present,
otherwise a no-op; never raises. -/
def dict_pop_key (l : List (String × String × String))
    (k : String × String × String) : List (String × String × String) :=
  l.filter (fun q => ¬ q = k)

/-- The acknowledgement dict the adapter returns. -/
structure AckResponse where
  status : String
  symbol : String
  exchange : String
  mode : String
deriving Repr, DecidableEq

/-- `UpstoxWebSocketAdapter.subscribe(symbol, exchange, mode)`. `send` is
`self.ws.send` inside the client's `subscribe` (raising becomes
`Except.error`); `guid` stands for the generated `uuid.uuid4()`. The result
is the new state, the outcome, and the texts handed to `send`. The wire
send precedes the bookkeeping, so an error leaves the state unchanged. -/
def adapter_subscribe (send : String → Except String Unit) (guid : String)
    (st : AdapterState) (symbol exchange mode : String) :
    AdapterState × Except String AckResponse × List String :=
  let instrument_key := to_upstox_exchange exchange ++ "|" ++ symbol
  let msg := ws_subscribe_msg guid mode [instrument_key]
  match send msg with
  | .error e => (st, .error e, [msg])
  | .ok _ =>
    ({ st with subscriptions := dict_set_key st.subscriptions (symbol, exchange, mode) },
     .ok ⟨"subscribed", symbol, exchange, mode⟩, [msg])

/-- `UpstoxWebSocketAdapter.unsubscribe(symbol, exchange, mode)`. As in
`adapter_subscribe`, the wire send comes first and is not wrapped in any
`try/except`: when it raises, the `pop` on `self.subscriptions` is never
reached and the exception propagates. -/
def adapter_unsubscribe (send : String → Except String Unit) (guid : String)
    (st : AdapterState) (symbol exchange mode : String) :
    AdapterState × Except String AckResponse × List String :=
  let instrument_key := to_upstox_exchange exchange ++ "|" ++ symbol
  let msg := ws_unsubscribe_msg guid [instrument_key]
  match send msg with
  | .error e => (st, .error e, [msg])
  | .ok _ =>
    ({ st with subscriptions := dict_pop_key st.subscriptions (symbol, exchange, mode) },
     .ok ⟨"unsubscribed", symbol, exchange, mode⟩, [msg])

/-- A transport send that succeeds on every message. -/
def okSend : String → Except String Unit := fun _ => .ok ()

/-- A transport send that raises on every message, as `websocket-client`
does once the connection is closed. -/
def closedSend : String → Except String Unit :=
  fun _ => .error "Connection is already closed."

/-- A connected adapter state with an empty subscription set. -/
def st0 : AdapterState :=
  { access_token := some "token", running := true, ws_client := true,
    subscriptions := [] }

/-- A sample `connected`-flag history: the flag turns on at poll 2. -/
def exFlag : Nat → Bool := fun i => decide (i = 2)

/-- A sample decoder for witnesses: fails on the empty buffer, else the
length. -/
def exDec : List Nat → Except String Nat :=
  fun b => if b.isEmpty then .error "Failed to decode protobuf message"
           else .ok b.length

/-- A connected adapter state already holding one subscription key. -/
def st1 : AdapterState :=
  { access_token := some "token", running := true, ws_client := true,
    subscriptions := [("RELIANCE", "NSE", "ltpc")] }

end Upstox

namespace Upstox

/-- `List.lookup` misses every key the probe differs from. -/
theorem lookup_eq_none_of_ne {β : Type} (k : String) (l : List (String × β))
    (h : ∀ p ∈ l, ¬ k = p.1) : List.lookup k l = none := by
  induction l with
  | nil => rfl
  | cons p t ih =>
    have hp : (k == p.1) = false := by
      simp [h p (List.mem_cons_self p t)]
    simp only [List.lookup, hp]
    exact ih (fun q hq => h q (List.mem_cons_of_mem _ hq))

/-- Claim C3: for every generic exchange code in the known set,
`to_oa_exchange (to_upstox_exchange x) = x`, and for every string whose
upper-casing is outside the known set, `to_upstox_exchange` echoes the
upper-cased input back (input is case-insensitive via the upper-casing). -/
theorem upstox_c3 :
    (∀ x ∈ OA_TO_UPSTOX.map Prod.fst, to_oa_exchange (to_upstox_exchange x) = x) ∧
    (∀ x : String, pyUpper x ∉ OA_TO_UPSTOX.map Prod.fst →
      to_upstox_exchange x = pyUpper x) := by
  constructor
  · decide
  · intro x h
    have hnone : List.lookup (pyUpper x) OA_TO_UPSTOX = none := by
      refine lookup_eq_none_of_ne _ _ (fun p hp he => h ?_)
      exact he ▸ List.mem_map_of_mem Prod.fst hp
    simp [to_upstox_exchange, hnone]

/-- Witness for C3 at the known code `"NSE"` and the unknown code `"smart"`. -/
theorem upstox_c3_witness :
    to_oa_exchange (to_upstox_exchange "NSE") = "NSE" ∧
      to_upstox_exchange "smart" = pyUpper "smart" :=
  ⟨upstox_c3.1 "NSE" (by decide), upstox_c3.2 "smart" (by decide)⟩

/-- Claim C8: `is_mode_supported` holds exactly on the four fixed modes, and
`get_max_subscriptions` of any unsupported mode is 0. -/
theorem upstox_c8 :
    (∀ m : String, is_mode_supported m = true ↔
      (m = "ltpc" ∨ m = "option_greeks" ∨ m = "full" ∨ m = "full_d30")) ∧
    (∀ m : String, is_mode_supported m = false → get_max_subscriptions m = 0) := by
  constructor
  · intro m
    have hmem : is_mode_supported m = true ↔ m ∈ MODES :=
      ⟨fun h => List.elem_iff.mp h, fun h => List.elem_iff.mpr h⟩
    rw [hmem]
    simp [ MODES]
  · intro m h
    have hm : m ∉ MODES := by
      intro hmem
      have hc : MODES.elem m = true := List.elem_iff.mpr hmem
      have hf : MODES.elem m = false := h
      rw [hc] at hf
      exact Bool.noConfusion hf
    have hnone : List.lookup m MAX_SUBSCRIPTIONS = none := by
      refine lookup_eq_none_of_ne _ _ (fun p hp he => hm ?_)
      have hk : p.1 ∈ MAX_SUBSCRIPTIONS.map Prod.fst := List.mem_map_of_mem Prod.fst hp
      rw [← he] at hk
      simp only [ MAX_SUBSCRIPTIONS, List.map, List.mem_cons, List.not_mem_nil,
        or_false] at hk
      simp only [ MODES, List.mem_cons, List.not_mem_nil, or_false]
      tauto
    simp [get_max_subscriptions, hnone]

/-- Witness for C8 at the supported mode `"ltpc"` and unsupported `"depth"`. -/
theorem upstox_c8_witness :
    is_mode_supported "ltpc" = true ∧ get_max_subscriptions "depth" = 0 :=
  ⟨(upstox_c8.1 "ltpc").mpr (Or.inl rfl), upstox_c8.2 "depth" (by decide)⟩

/-- Claim C1: a frame whose decoding raises is reported through `on_error`
and the handler returns normally: in a frame sequence it contributes exactly
one error event, the frames before and after it are still processed, and any
frame that decodes is delivered to `on_message`. -/
theorem upstox_c1 {α : Type} (dec : List Nat → Except String α)
    (pre post : List Frame) (b : List Nat) (e : String)
    (hbad : dec b = .error e) :
    receive_loop dec (pre ++ Frame.binary b :: post) =
      receive_loop dec pre ++ WsEvent.onError e :: receive_loop dec post ∧
    (∀ b' : List Nat, ∀ d : α, dec b' = .ok d →
      ws_on_message dec (Frame.binary b') = [WsEvent.onMessage (Delivered.dict d)]) := by
  constructor
  · simp [receive_loop, ws_on_message, hbad]
  · intro b' d h
    simp [ws_on_message, h]

/-- Witness for C1: a valid frame, a malformed frame, a valid frame; the
malformed one yields one error event and both valid ones are delivered. -/
theorem upstox_c1_witness :
    receive_loop exDec ([Frame.binary [1, 7]] ++ Frame.binary [] :: [Frame.binary [2, 3]]) =
      [WsEvent.onMessage (Delivered.dict 2),
       WsEvent.onError "Failed to decode protobuf message",
       WsEvent.onMessage (Delivered.dict 2)] := by
  rw [(upstox_c1 exDec [Frame.binary [1, 7]] [Frame.binary [2, 3]] []
    "Failed to decode protobuf message" rfl).1]
  decide

/-- `connect_poll` returns `true` iff the flag is observed inside the
window. -/
theorem connect_poll_true_iff (connected : Nat → Bool) (fuel : Nat) :
    ∀ i, (connect_poll connected i fuel).1 = true ↔
      ∃ j, j < fuel ∧ connected (i + j) = true := by
  induction fuel with
  | zero => intro i; simp [connect_poll]
  | succ n ih =>
    intro i
    rw [connect_poll]
    by_cases h : connected i = true
    · rw [if_pos h]
      exact ⟨fun _ => ⟨0, Nat.succ_pos n, by simpa using h⟩, fun _ => rfl⟩
    · rw [if_neg h]
      constructor
      · intro hr
        obtain ⟨j, hj, hc⟩ := (ih (i + 1)).mp hr
        exact ⟨j + 1, by omega,
          by rw [(by omega : i + (j + 1) = i + 1 + j)]; exact hc⟩
      · rintro ⟨j, hj, hc⟩
        match j with
        | 0 => exact absurd (by simpa using hc) h
        | j + 1 =>
          exact (ih (i + 1)).mpr ⟨j, by omega,
            by rw [(by omega : i + 1 + j = i + (j + 1))]; exact hc⟩

/-- `connect_poll` performs at most `fuel` waits, each of 100 ms. -/
theorem connect_poll_waits (connected : Nat → Bool) (fuel : Nat) :
    ∀ i, (connect_poll connected i fuel).2.length ≤ fuel ∧
      ∀ w ∈ (connect_poll connected i fuel).2, w = 100 := by
  induction fuel with
  | zero => intro i; simp [connect_poll]
  | succ n ih =>
    intro i
    rw [connect_poll]
    by_cases h : connected i = true
    · rw [if_pos h]
      exact ⟨Nat.zero_le _, fun w hw => absurd hw (List.not_mem_nil w)⟩
    · rw [if_neg h]
      refine ⟨Nat.succ_le_succ (ih (i + 1)).1, ?_⟩
      intro w hw
      rcases List.mem_cons.mp hw with rfl | hw'
      · rfl
      · exact (ih (i + 1)).2 w hw'

/-- `connect_poll` returns at the first iteration that observes the flag,
having waited once per earlier iteration. -/
theorem connect_poll_first (connected : Nat → Bool) (fuel : Nat) :
    ∀ i j, j < fuel → connected (i + j) = true →
      (∀ l, l < j → connected (i + l) = false) →
      connect_poll connected i fuel = (true, List.replicate j 100) := by
  induction fuel with
  | zero => intro i j hj _ _; omega
  | succ n ih =>
    intro i j hj hc hfirst
    rw [connect_poll]
    match j with
    | 0 =>
      rw [if_pos (by simpa using hc)]
      rfl
    | j + 1 =>
      have h0 : ¬ connected i = true := by
        have := hfirst 0 (Nat.succ_pos j)
        simp only [Nat.add_zero] at this
        simp [this]
      rw [if_neg h0]
      have hr := ih (i + 1) j (by omega)
        (by rw [(by omega : i + 1 + j = i + (j + 1))]; exact hc)
        (fun l hl => by
          rw [(by omega : i + 1 + l = i + (l + 1))]
          exact hfirst (l + 1) (by omega))
      rw [hr]
      rfl

/-- Claim C6: the wait window of `UpstoxWebSocket.connect` polls the
connected flag at most 30 times with 100 ms waits, returns `true` at the
first poll that observes the flag (after one wait per earlier poll) and
`false` when the flag is never observed in the window; it never raises
(it is a total Bool-valued function). -/
theorem upstox_c6 (connected : Nat → Bool) :
    ((ws_connect_wait connected).1 = true ↔ ∃ j, j < 30 ∧ connected j = true) ∧
    (ws_connect_wait connected).2.length ≤ 30 ∧
    (∀ w ∈ (ws_connect_wait connected).2, w = 100) ∧
    (∀ j, j < 30 → connected j = true → (∀ l, l < j → connected l = false) →
      ws_connect_wait connected = (true, List.replicate j 100)) := by
  refine ⟨?_, (connect_poll_waits connected 30 0).1,
    (connect_poll_waits connected 30 0).2, ?_⟩
  · rw [ws_connect_wait, connect_poll_true_iff connected 30 0]
    simp only [Nat.zero_add]
  · intro j hj hc hfirst
    rw [ws_connect_wait]
    exact connect_poll_first connected 30 0 j hj (by simpa using hc)
      (fun l hl => by simpa using hfirst l hl)

/-- Witness for C6: with the flag first observed at poll 2, the wait loop
returns `true` after exactly two 100 ms waits. -/
theorem upstox_c6_witness :
    (ws_connect_wait exFlag).1 = true ∧
      ws_connect_wait exFlag = (true, List.replicate 2 100) := by
  constructor
  · exact ((upstox_c6 exFlag).1).mpr ⟨2, by omega, by decide⟩
  · refine (upstox_c6 exFlag).2.2.2 2 (by omega) (by decide) ?_
    intro l hl
    interval_cases l <;> decide

/-- Claim C4: `UpstoxWebSocketAdapter.connect` with no access token raises
immediately: the result is the error, the state is untouched and no step —
neither client construction nor a transport handshake — is taken; with a
(non-empty) token present the credential check raises no error. -/
theorem upstox_c4 (st : AdapterState) (b : Bool) :
    (st.access_token = none →
      adapter_connect b st =
        (st, .error "Upstox access_token required for WebSocket connection.", [])) ∧
    (∀ t, st.access_token = some t → ¬ t = "" →
      (adapter_connect b st).2.1 = .ok ()) := by
  constructor
  · intro h
    simp [adapter_connect, tokenMissing, h]
  · intro t ht hne
    have hf : tokenMissing st.access_token = false := by
      simp [tokenMissing, ht, hne]
    simp [adapter_connect, hf]

/-- Witness for C4: a tokenless state fails with the exact message and an
empty step trace; `st0` (token present) passes the credential check. -/
theorem upstox_c4_witness :
    adapter_connect true
        { access_token := none, running := false, ws_client := false,
          subscriptions := [] } =
      ({ access_token := none, running := false, ws_client := false,
         subscriptions := [] },
       .error "Upstox access_token required for WebSocket connection.", []) ∧
    (adapter_connect true st0).2.1 = .ok () :=
  ⟨(upstox_c4 _ true).1 rfl, (upstox_c4 st0 true).2 "token" rfl (by decide)⟩

/-- Claim C9: with a credential present, `adapter_connect` sets `running`
to `true` for every outcome of the client's `connect()` — including a
timed-out `connect()` returning `false`, whose result is merely traced and
ignored — so `running = true` does not imply a live connection. -/
theorem upstox_c9 (st : AdapterState) (b : Bool) (t : String)
    (ht : st.access_token = some t) (hne : ¬ t = "") :
    (adapter_connect b st).1.running = true ∧
    (adapter_connect b st).2.2 = [.constructClient, .wsConnect b] := by
  have hf : tokenMissing st.access_token = false := by
    simp [tokenMissing, ht, hne]
  simp [adapter_connect, hf]

/-- Witness for C9: the client's `connect()` times out (`false`), yet the
adapter's `running` flag is `true`. -/
theorem upstox_c9_witness : (adapter_connect false st0).1.running = true :=
  (upstox_c9 st0 false "token" rfl (by decide)).1

/-- Claim C10: the adapter's subscribe is atomic on error — the wire send
precedes the bookkeeping, so a raising send leaves the state (in particular
the subscription set) unchanged and no acknowledgement is returned. -/
theorem upstox_c10 (send : String → Except String Unit) (guid : String)
    (st : AdapterState) (symbol exchange mode e : String)
    (h : send (ws_subscribe_msg guid mode
      [to_upstox_exchange exchange ++ "|" ++ symbol]) = .error e) :
    (adapter_subscribe send guid st symbol exchange mode).1 = st ∧
    (adapter_subscribe send guid st symbol exchange mode).2.1 = .error e := by
  simp [adapter_subscribe, h]

/-- Witness for C10: a closed-connection send fails a concrete subscribe and
the state is exactly the old one. -/
theorem upstox_c10_witness :
    (adapter_subscribe closedSend "g" st0 "RELIANCE" "NSE" "ltpc").1 = st0 ∧
    (adapter_subscribe closedSend "g" st0 "RELIANCE" "NSE" "ltpc").2.1 =
      .error "Connection is already closed." :=
  upstox_c10 closedSend "g" st0 "RELIANCE" "NSE" "ltpc"
    "Connection is already closed." rfl

/-- Claim C7: from an empty subscription set, subscribe then unsubscribe of
`("RELIANCE", "NSE", "ltpc")` (wire sends succeeding) leaves the set empty;
and unsubscribing a key not in the set leaves the set unchanged and returns
the acknowledgement instead of raising. -/
theorem upstox_c7 (st : AdapterState) (g1 g2 : String)
    (h : st.subscriptions = []) :
    ((adapter_unsubscribe okSend g2
        (adapter_subscribe okSend g1 st "RELIANCE" "NSE" "ltpc").1
        "RELIANCE" "NSE" "ltpc").1.subscriptions = []) ∧
    (∀ st' : AdapterState, ∀ symbol exchange mode g : String,
      (symbol, exchange, mode) ∉ st'.subscriptions →
      (adapter_unsubscribe okSend g st' symbol exchange mode).1.subscriptions =
        st'.subscriptions ∧
      (adapter_unsubscribe okSend g st' symbol exchange mode).2.1 =
        .ok ⟨"unsubscribed", symbol, exchange, mode⟩) := by
  constructor
  · simp [adapter_subscribe, adapter_unsubscribe, okSend, dict_set_key,
      dict_pop_key, h]
  · intro st' symbol exchange mode g hmem
    refine ⟨?_, by simp [adapter_unsubscribe, okSend]⟩
    simp only [adapter_unsubscribe, okSend, dict_pop_key]
    refine List.filter_eq_self.mpr ?_
    intro a ha
    simp only [decide_eq_true_eq]
    intro hak
    exact hmem (hak ▸ ha)

/-- Witness for C7: the subscribe/unsubscribe round trip on `st0` ends
empty, and unsubscribing the never-subscribed `("TCS", "NSE", "ltpc")`
leaves `st0`'s empty set unchanged. -/
theorem upstox_c7_witness :
    ((adapter_unsubscribe okSend "g2"
        (adapter_subscribe okSend "g1" st0 "RELIANCE" "NSE" "ltpc").1
        "RELIANCE" "NSE" "ltpc").1.subscriptions = []) ∧
    (adapter_unsubscribe okSend "g" st0 "TCS" "NSE" "ltpc").1.subscriptions = [] := by
  have h := upstox_c7 st0 "g1" "g2" rfl
  exact ⟨h.1, ((h.2 st0 "TCS" "NSE" "ltpc" "g" (by decide)).1).trans rfl⟩

/-- Counterexample to claim C2 as stated: with the key subscribed and the
wire send raising (closed connection), `adapter_unsubscribe` does NOT remove
the key — the send precedes the `pop` and the exception propagates first,
so the key is still in the set. -/
theorem upstox_c2_counterexample :
    (adapter_unsubscribe closedSend "g" st1 "RELIANCE" "NSE" "ltpc").1.subscriptions =
      [("RELIANCE", "NSE", "ltpc")] ∧
    (adapter_unsubscribe closedSend "g" st1 "RELIANCE" "NSE" "ltpc").2.1 =
      .error "Connection is already closed." := by
  constructor <;> rfl

/-- Claim C2 as amended: `adapter_unsubscribe` removes the key exactly when
the wire send does not raise; when the send raises, the error propagates
and the subscription set (indeed the whole state) is unchanged. -/
theorem upstox_c2 (send : String → Except String Unit) (guid : String)
    (st : AdapterState) (symbol exchange mode : String) :
    (send (ws_unsubscribe_msg guid
        [to_upstox_exchange exchange ++ "|" ++ symbol]) = .ok () →
      (symbol, exchange, mode) ∉
        (adapter_unsubscribe send guid st symbol exchange mode).1.subscriptions) ∧
    (∀ e, send (ws_unsubscribe_msg guid
        [to_upstox_exchange exchange ++ "|" ++ symbol]) = .error e →
      (adapter_unsubscribe send guid st symbol exchange mode).1 = st ∧
      (adapter_unsubscribe send guid st symbol exchange mode).2.1 = .error e) := by
  constructor
  · intro hok hmem
    simp only [adapter_unsubscribe, hok, dict_pop_key] at hmem
    have := (List.mem_filter.mp hmem).2
    simp at this
  · intro e herr
    simp [adapter_unsubscribe, herr]

/-- Witness for C2 (amended): on `st1` a succeeding send removes the key; a
raising send leaves `st1` unchanged. -/
theorem upstox_c2_witness :
    ("RELIANCE", "NSE", "ltpc") ∉
      (adapter_unsubscribe okSend "g" st1 "RELIANCE" "NSE" "ltpc").1.subscriptions ∧
    (adapter_unsubscribe closedSend "g" st1 "RELIANCE" "NSE" "ltpc").1 = st1 :=
  ⟨(upstox_c2 okSend "g" st1 "RELIANCE" "NSE" "ltpc").1 rfl,
   ((upstox_c2 closedSend "g" st1 "RELIANCE" "NSE" "ltpc").2
     "Connection is already closed." rfl).1⟩

/-- `.data` distributes over string append (definitionally). -/
theorem string_data_append (s t : String) : (s ++ t).data = s.data ++ t.data :=
  rfl

/-- Claim C5: subscribe sends exactly the JSON text
`{"guid": g, "method": "sub", "data": {"mode": m, "instrumentKeys": [k]}}`,
unsubscribe the same without the `"mode"` entry (for escape-free guid, mode
and key), and the adapter's instrument key for `("RELIANCE", "NSE", "ltpc")`
is `"NSE_EQ|RELIANCE"` in both directions. -/
theorem upstox_c5 (guid mode key : String)
    (hg : jescape guid = guid) (hmo : jescape mode = mode)
    (hk : jescape key = key) :
    ws_subscribe_msg guid mode [key] =
      "\x7b\"guid\": \"" ++ guid ++ "\", \"method\": \"sub\", \"data\": \x7b\"mode\": \"" ++
        mode ++ "\", \"instrumentKeys\": [\"" ++ key ++ "\"]\x7d\x7d" ∧
    ws_unsubscribe_msg guid [key] =
      "\x7b\"guid\": \"" ++ guid ++
        "\", \"method\": \"unsub\", \"data\": \x7b\"instrumentKeys\": [\"" ++
        key ++ "\"]\x7d\x7d" ∧
    (adapter_subscribe okSend guid st0 "RELIANCE" "NSE" "ltpc").2.2 =
      [ws_subscribe_msg guid "ltpc" ["NSE_EQ|RELIANCE"]] ∧
    (adapter_unsubscribe okSend guid st0 "RELIANCE" "NSE" "ltpc").2.2 =
      [ws_unsubscribe_msg guid ["NSE_EQ|RELIANCE"]] := by
  refine ⟨?_, ?_, rfl, rfl⟩
  · apply String.ext
    simp only [ws_subscribe_msg, dumps, dumpsArr, dumpsObj, List.map, jquote,
      hg, hmo, hk, string_data_append, List.append_assoc]
    rfl
  · apply String.ext
    simp only [ws_unsubscribe_msg, dumps, dumpsArr, dumpsObj, List.map, jquote,
      hg, hk, string_data_append, List.append_assoc]
    rfl

/-- Witness for C5 with a concrete guid: the exact wire text of the
subscribe control message for `"NSE_EQ|RELIANCE"`. -/
theorem upstox_c5_witness :
    ws_subscribe_msg "3f2c" "ltpc" ["NSE_EQ|RELIANCE"] =
      "\x7b\"guid\": \"3f2c\", \"method\": \"sub\", \"data\": \x7b\"mode\": \"ltpc\", \"instrumentKeys\": [\"NSE_EQ|RELIANCE\"]\x7d\x7d" := by
  rw [(upstox_c5 "3f2c" "ltpc" "NSE_EQ|RELIANCE" (by decide) (by decide)
    (by decide)).1]
  decide

end Upstox
